import Mathlib

/-!
# Verification of the open-light structured-light scanner

A shallow embedding of the orchestration code in
`src/Calibration/cvStructuredLight_Raj.cpp` (the `main` routine: startup,
calibration-flag loading, background-model initialisation, and the keystroke
command loop) and of the Kinect coordinate utilities in
`src/Kinect/Kinect-Utility.cpp` / `Kinect-Utility.h`.

Machine floats are modelled by exact rationals (`ℚ`); the `float` constants of
the source are taken at their decimal values. `FLT_MAX` is modelled by the
exact value of the largest finite IEEE-754 single, `(2 - 2^-23) * 2^127`.
-/

namespace Kinect

/-! ## Kinect-Utility constants (Kinect-Utility.h lines 9-13, .cpp lines 5-7) -/

/-- `float const Kinect_MinDistance = -10;` -/
def Kinect_MinDistance : ℚ := -10

/-- `float const Kinect_DepthScaleFactor = .0021f;` -/
def Kinect_DepthScaleFactor : ℚ := 21 / 10000

/-- `float Kinect_ColorScaleFactor = .0023f;` -/
def Kinect_ColorScaleFactor : ℚ := 23 / 10000

/-- `double Kinect_rgbxoffset = -1.8;` -/
def Kinect_rgbxoffset : ℚ := -18 / 10

/-- `double Kinect_rgbyoffset = -2.4;` -/
def Kinect_rgbyoffset : ℚ := -24 / 10

/-! ## Kinect-Utility functions -/

/-- `bool Kinect_IsDepthValid(unsigned short Depth)` (Kinect-Utility.cpp
lines 9-13): `if (Depth>0 && Depth != 0x07ff) return true; return false;`.
The argument is a `unsigned short`, modelled as a `Nat` below `2^16`. -/
def Kinect_IsDepthValid (Depth : Nat) : Bool :=
  if Depth > 0 && Depth != 0x07ff then true else false

/-- `float Kinect_DepthValueToZ(unsigned short Depth)` (lines 15-18):
`100.0f/(-0.00307f * (float)Depth + 3.33f)`. -/
def Kinect_DepthValueToZ (Depth : Nat) : ℚ :=
  100 / ((-307 / 100000) * (Depth : ℚ) + 333 / 100)

/-- `void KinectDepthToWorld(float &x, float &y, float &z)` (lines 25-37).
The source computes
`xx = (x - 320) * (zz + Kinect_MinDistance) * Kinect_DepthScaleFactor`,
`yy = (y - 240) * (zz + Kinect_MinDistance) * Kinect_DepthScaleFactor`,
then `zz -= 200; zz *= -1;` and writes `(xx, yy, zz)` back through the
reference parameters; here the updated triple is returned. -/
def KinectDepthToWorld (x y z : ℚ) : ℚ × ℚ × ℚ :=
  let zz := z
  let xx := (x - 320) * (zz + Kinect_MinDistance) * Kinect_DepthScaleFactor
  let yy := (y - 240) * (zz + Kinect_MinDistance) * Kinect_DepthScaleFactor
  (xx, yy, -(zz - 200))

/-- The raw-depth recovery at the top of `KinectWorldToRGBSpace`
(lines 41-42): `z*=-1; z+=200;` applied to the world-space `z`. -/
def KinectWorldToRGBSpace_rawDepth (z : ℚ) : ℚ := -z + 200

/-- `void KinectWorldToRGBSpace(float &x, float &y, float z)` (lines 39-52).
After recovering the raw depth axis (`z*=-1; z+=200;`), the source computes
`ox = ((x + Kinect_rgbxoffset) / Kinect_ColorScaleFactor) / (z + Kinect_MinDistance)`
(and analogously `oy`), shifts by the image center `(320, 240)`, and clamps:
`x = __min(640,__max(0,ox)); y = __min(480,__max(0,oy));`.
The clamped pixel pair is returned. -/
def KinectWorldToRGBSpace (x y z : ℚ) : ℚ × ℚ :=
  let z1 := KinectWorldToRGBSpace_rawDepth z
  let ox := ((x + Kinect_rgbxoffset) / Kinect_ColorScaleFactor) / (z1 + Kinect_MinDistance) + 320
  let oy := ((y + Kinect_rgbyoffset) / Kinect_ColorScaleFactor) / (z1 + Kinect_MinDistance) + 240
  (min 640 (max 0 ox), min 480 (max 0 oy))

end Kinect

namespace StructuredLight

/-! ## The calibration application (`src/Calibration/cvStructuredLight_Raj.cpp`)

The `main` routine is modelled piecewise: the exit-code structure of startup,
the calibration-flag loading sequence, the allocation sizes of the calibration
matrices, the background model, and one iteration of the keystroke command
loop. Environment facts that `main` observes (whether a file opened, whether a
`cvLoad` returned non-null, what `_getch` returned) are inputs of the model. -/

/-- The fields of `struct slParams` that the modelled code reads. -/
structure SlParams where
  cam_w : Nat
  cam_h : Nat
  proj_w : Nat
  proj_h : Nat
  outdir : String
  object : String
  Logitech_9000 : Bool

/-! ### Startup exit codes (lines 44-159, 352) -/

/-- Outcome of the Kinect back-end acquisition block (lines 59-82, compiled
when no other `USE_CAMERA_ID` is selected): `return 0` when
`GetKinectCount() < 1` (line 65) and again `return 0` when `GetKinect()`
yields a null handle (line 72); `none` means the block falls through and
startup continues. -/
def kinectAcquireExit (kinectCount : Nat) (kinectHandleOk : Bool) : Option Int :=
  if kinectCount < 1 then some 0
  else if !kinectHandleOk then some 0
  else none

/-- Outcome of the startup sequence after camera creation (lines 96-159):
`return -1` when the configuration file cannot be opened (line 108), when
`camera->Init` fails (line 117), when `camera->StartCapture` fails
(line 125), when no first frame is available (line 134), or when the output
directory cannot be recreated (line 158); `none` means startup completes and
the command loop is entered. -/
def mainStartupExit (configExists cameraInitOk startCaptureOk firstFrameOk
    mkdirOk : Bool) : Option Int :=
  if !configExists then some (-1)
  else if !cameraInitOk then some (-1)
  else if !startCaptureOk then some (-1)
  else if !firstFrameOk then some (-1)
  else if !mkdirOk then some (-1)
  else none

/-- The full early-exit structure of `main` on the Kinect back-end: the
Kinect acquisition block runs first, then the common startup sequence. -/
def startupExit (kinectCount : Nat) (kinectHandleOk : Bool)
    (configExists cameraInitOk startCaptureOk firstFrameOk mkdirOk : Bool) :
    Option Int :=
  match kinectAcquireExit kinectCount kinectHandleOk with
  | some c => some c
  | none => mainStartupExit configExists cameraInitOk startCaptureOk
      firstFrameOk mkdirOk

/-- The exit code of the clean path: `return 0;` at line 352, reached by
`break`ing out of the command loop on ESC. -/
def cleanExitCode : Int := 0

/-! ### Calibration-flag loading (lines 161-227) -/

/-- Which persisted calibration files load successfully at startup: one
Boolean per `cvLoad` probe of lines 185-221 (`true` = the load returned a
non-null matrix). -/
structure LoadEnv where
  camIntrinsicLoads : Bool
  camDistortionLoads : Bool
  projIntrinsicLoads : Bool
  projDistortionLoads : Bool
  camExtrinsicLoads : Bool
  projExtrinsicLoads : Bool

/-- The three validity flags of `struct slCalib` that `main` manipulates. -/
structure CalibFlags where
  cam_intrinsic_calib : Bool
  proj_intrinsic_calib : Bool
  procam_extrinsic_calib : Bool
deriving DecidableEq

/-- Lines 165-167: all three flags start `false`. -/
def initCalibFlags : CalibFlags :=
  { cam_intrinsic_calib := false
    proj_intrinsic_calib := false
    procam_extrinsic_calib := false }

/-- Lines 183-194: `cam_intrinsic_calib` becomes `true` when both
`cam_intrinsic.xml` and `cam_distortion.xml` load. -/
def loadCamIntrinsics (env : LoadEnv) (c : CalibFlags) : CalibFlags :=
  if env.camIntrinsicLoads && env.camDistortionLoads then
    { c with cam_intrinsic_calib := true }
  else c

/-- Lines 203-213: `proj_intrinsic_calib` becomes `true` when both
`proj_intrinsic.xml` and `proj_distortion.xml` load. -/
def loadProjIntrinsics (env : LoadEnv) (c : CalibFlags) : CalibFlags :=
  if env.projIntrinsicLoads && env.projDistortionLoads then
    { c with proj_intrinsic_calib := true }
  else c

/-- Lines 215-227: `procam_extrinsic_calib` becomes `true` when both
intrinsic flags are already set AND both `cam_extrinsic.xml` and
`proj_extrinsic.xml` load. -/
def loadProcamExtrinsics (env : LoadEnv) (c : CalibFlags) : CalibFlags :=
  if (c.cam_intrinsic_calib && c.proj_intrinsic_calib) &&
      (env.camExtrinsicLoads && env.projExtrinsicLoads) then
    { c with procam_extrinsic_calib := true }
  else c

/-- The flag state after the whole loading sequence of lines 161-227. -/
def startupCalibFlags (env : LoadEnv) : CalibFlags :=
  loadProcamExtrinsics env (loadProjIntrinsics env (loadCamIntrinsics env initCalibFlags))

/-! ### Calibration-matrix allocation sizes (lines 161-180) -/

/-- Rows and columns of a `cvCreateMat` allocation. -/
structure MatSize where
  rows : Nat
  cols : Nat
deriving DecidableEq

/-- Line 163: `int cam_nelems = sl_params.cam_w*sl_params.cam_h;` -/
def cam_nelems (p : SlParams) : Nat := p.cam_w * p.cam_h

/-- Line 164: `int proj_nelems = sl_params.proj_w*sl_params.proj_h;` -/
def proj_nelems (p : SlParams) : Nat := p.proj_w * p.proj_h

/-- Line 176: `sl_calib.cam_rays = cvCreateMat(3, cam_nelems, CV_32FC1);` -/
def cam_rays_size (p : SlParams) : MatSize := ⟨3, cam_nelems p⟩

/-- Line 177: `sl_calib.proj_rays = cvCreateMat(3, cam_nelems, CV_32FC1);`
(the per-projector-pixel variant at line 178 is commented out). -/
def proj_rays_size (p : SlParams) : MatSize := ⟨3, cam_nelems p⟩

/-- Line 179: `cvCreateMat(sl_params.proj_w, 4, CV_32FC1)`. -/
def proj_column_planes_size (p : SlParams) : MatSize := ⟨p.proj_w, 4⟩

/-- Line 180: `cvCreateMat(sl_params.proj_h, 4, CV_32FC1)`. -/
def proj_row_planes_size (p : SlParams) : MatSize := ⟨p.proj_h, 4⟩

/-! ### Background model (lines 229-235 and 265-279) -/

/-- The exact value of `FLT_MAX`, the largest finite IEEE-754 single:
`(2 - 2^-23) * 2^127 = 2^128 - 2^104`. -/
def FLT_MAX : ℚ := 2 ^ 128 - 2 ^ 104

/-- The background model of `struct slCalib`: the per-pixel depth map
(`CV_32FC1`), the reference color image (8-bit, 3 channels, here a BGR
triple per pixel), and the validity mask (8-bit, 1 channel). Pixels are
indexed by (row, column); entries outside `cam_h × cam_w` are immaterial. -/
structure BackgroundModel where
  background_depth_map : Nat → Nat → ℚ
  background_image : Nat → Nat → Nat × Nat × Nat
  background_mask : Nat → Nat → Nat

/-- Lines 233-235: `cvSet(depth_map, cvScalar(FLT_MAX)); cvZero(image);
cvSet(mask, cvScalar(255));` — the state right after initialisation. -/
def initBackground : BackgroundModel :=
  { background_depth_map := fun _ _ => FLT_MAX
    background_image := fun _ _ => (0, 0, 0)
    background_mask := fun _ _ => 255 }

/-- Lines 275-277 (the `'r'` reset-background branch; the `'b'` branch at
lines 267-269 performs the same writes before capturing): every depth entry
is set to `FLT_MAX`, the image is zeroed, the mask is set to 255. -/
def resetBackground (bg : BackgroundModel) : BackgroundModel :=
  { bg with
    background_depth_map := fun _ _ => FLT_MAX
    background_image := fun _ _ => (0, 0, 0)
    background_mask := fun _ _ => 255 }

/-! ### Projector display frames (lines 139-143 and 244-247) -/

/-- Line 140: `cvSet(proj_frame, cvScalar(255, 0, 0));` — the frame shown at
startup. `cvScalar(b, g, r)` on a 3-channel image fills channels in BGR
order, so this is pure blue. -/
def startupProjFrameColor : Nat × Nat × Nat := (255, 0, 0)

/-- Line 245: `cvSet(proj_frame, cvScalar(255, 255, 255));` — the frame
shown at the top of every command-loop iteration (white; the adjacent
comment says "black" but the scalar is all-255). -/
def idleProjFrameColor : Nat × Nat × Nat := (255, 255, 255)

/-! ### The command loop (lines 240-316) -/

/-- The operation a keystroke dispatches (lines 250-299). -/
inductive Command where
  | exitApp
  | runScanner
  | scanBackground
  | resetBackgroundCmd
  | calibrateCamera
  | calibrateProjector (simultaneous : Bool)
  | calibrateExtrinsic
  | showPrompt
deriving DecidableEq

/-- What one command-loop iteration does with keystroke `key` (the `int`
returned by `_getch`, so letter keys arrive as lowercase ASCII codes):
the dispatched command, and the path passed to `writeConfiguration` when it
is called on that iteration (only the ESC branch, lines 250-259, calls it,
with the startup `configFile`). ESC is 27; `'s'`=115, `'b'`=98, `'r'`=114,
`'c'`=99, `'p'`=112 (simultaneous `false`, line 287), `'a'`=97
(simultaneous `true`, line 292), `'e'`=101. Any other key falls through to
the prompt (lines 302-312). -/
def loopIteration (configFile : String) (key : Nat) : Command × Option String :=
  if key = 27 then (.exitApp, some configFile)
  else if key = 115 then (.runScanner, none)
  else if key = 98 then (.scanBackground, none)
  else if key = 114 then (.resetBackgroundCmd, none)
  else if key = 99 then (.calibrateCamera, none)
  else if key = 112 then (.calibrateProjector false, none)
  else if key = 97 then (.calibrateProjector true, none)
  else if key = 101 then (.calibrateExtrinsic, none)
  else (.showPrompt, none)

end StructuredLight

/-! ## Claims about the Kinect utilities -/

/-- C8: for every 16-bit raw depth value `d`, `Kinect_IsDepthValid d` returns
`true` if and only if `d > 0` and `d ≠ 0x07ff = 2047`; zero and the sentinel
2047 are exactly the invalid raw depth readings. -/
theorem C8_isDepthValid_iff (d : Nat) (h : d < 2 ^ 16) :
    Kinect.Kinect_IsDepthValid d = true ↔ (d > 0 ∧ d ≠ 2047) := by
  simp [Kinect.Kinect_IsDepthValid]

/-- Witness for C8: the bound and the equivalence hold at `d = 2047`,
an invalid reading. -/
theorem C8_isDepthValid_iff_witness :
    (2047 < 2 ^ 16) ∧
      (Kinect.Kinect_IsDepthValid 2047 = true ↔ (2047 > 0 ∧ 2047 ≠ 2047)) :=
  ⟨by norm_num, C8_isDepthValid_iff 2047 (by norm_num)⟩

/-- C9: for every input `(x, y, z)`, `KinectWorldToRGBSpace` returns an `x`
in the closed interval `[0, 640]` and a `y` in `[0, 480]`; the upper clamp
bounds 640 and 480 are the full RGB image width and height, one past the
largest valid pixel indices 639 and 479. -/
theorem C9_worldToRGBSpace_clamped (x y z : ℚ) :
    0 ≤ (Kinect.KinectWorldToRGBSpace x y z).1 ∧
      (Kinect.KinectWorldToRGBSpace x y z).1 ≤ 640 ∧
      0 ≤ (Kinect.KinectWorldToRGBSpace x y z).2 ∧
      (Kinect.KinectWorldToRGBSpace x y z).2 ≤ 480 ∧
      (640 : ℚ) = 639 + 1 ∧ (480 : ℚ) = 479 + 1 := by
  refine ⟨?_, ?_, ?_, ?_, by norm_num, by norm_num⟩
  · exact le_min (by norm_num) (le_max_left 0 _)
  · exact min_le_left _ _
  · exact le_min (by norm_num) (le_max_left 0 _)
  · exact min_le_left _ _

/-- C10: the depth-axis maps used by `KinectDepthToWorld` (`z ↦ -(z - 200)`)
and by `KinectWorldToRGBSpace` to recover the raw depth (`z ↦ -z + 200`) are
mutually inverse in exact arithmetic: composing them in either order is the
identity on the depth axis. -/
theorem C10_depthAxis_roundtrip (x y z : ℚ) :
    Kinect.KinectWorldToRGBSpace_rawDepth (Kinect.KinectDepthToWorld x y z).2.2 = z ∧
      (Kinect.KinectDepthToWorld x y (Kinect.KinectWorldToRGBSpace_rawDepth z)).2.2 = z := by
  constructor <;>
    simp [Kinect.KinectDepthToWorld, Kinect.KinectWorldToRGBSpace_rawDepth]

/-! ## Claims about the calibration application -/

namespace StructuredLight

/-- C1: after the startup loading sequence, `procam_extrinsic_calib` is true
exactly when both intrinsic validity flags are true and both extrinsic files
loaded; in every other case it remains false. -/
theorem C1_procam_extrinsic_requires_intrinsics (env : LoadEnv) :
    (startupCalibFlags env).procam_extrinsic_calib =
      ((startupCalibFlags env).cam_intrinsic_calib &&
        (startupCalibFlags env).proj_intrinsic_calib &&
        (env.camExtrinsicLoads && env.projExtrinsicLoads)) := by
  obtain ⟨a, b, c, d, e, f⟩ := env
  cases a <;> cases b <;> cases c <;> cases d <;> cases e <;> cases f <;> rfl

/-- C2 (code bug): on the Kinect back-end, failing to find a Kinect device
(and likewise getting a null Kinect handle) makes `main` return 0 — the same
exit code as the clean ESC exit — whereas the other fatal startup errors
(missing configuration, camera-init failure, capture-start failure, no first
frame) all return -1. The claim that every fatal startup error exits
non-zero is therefore violated by the two Kinect failure paths. -/
theorem C2_kinect_failure_exits_with_clean_code :
    startupExit 0 true true true true true true = some 0 ∧
      startupExit 1 false true true true true true = some 0 ∧
      mainStartupExit false true true true true = some (-1) ∧
      mainStartupExit true false true true true = some (-1) ∧
      mainStartupExit true true false true true = some (-1) ∧
      mainStartupExit true true true false true = some (-1) ∧
      cleanExitCode = 0 := by
  decide

/-- C3: in the command loop, key `s` dispatches the scanner, `b` the
background scan, `r` the background reset, `c` camera calibration, `p`
projector calibration with `simultaneous = false`, `a` projector calibration
with `simultaneous = true`, `e` extrinsic calibration, and ESC (27) the
application exit. -/
theorem C3_key_dispatch (cfg : String) :
    (loopIteration cfg 115).1 = Command.runScanner ∧
      (loopIteration cfg 98).1 = Command.scanBackground ∧
      (loopIteration cfg 114).1 = Command.resetBackgroundCmd ∧
      (loopIteration cfg 99).1 = Command.calibrateCamera ∧
      (loopIteration cfg 112).1 = Command.calibrateProjector false ∧
      (loopIteration cfg 97).1 = Command.calibrateProjector true ∧
      (loopIteration cfg 101).1 = Command.calibrateExtrinsic ∧
      (loopIteration cfg 27).1 = Command.exitApp := by
  exact ⟨rfl, rfl, rfl, rfl, rfl, rfl, rfl, rfl⟩

/-- C4: the background model is initialised with every depth entry equal to
`FLT_MAX`, a zeroed reference image, and an all-valid (255) mask, and the
reset-background command restores exactly this initial state. -/
theorem C4_background_init_and_reset :
    (∀ u v, initBackground.background_depth_map u v = FLT_MAX) ∧
      (∀ u v, initBackground.background_image u v = (0, 0, 0)) ∧
      (∀ u v, initBackground.background_mask u v = 255) ∧
      ∀ bg, resetBackground bg = initBackground :=
  ⟨fun _ _ => rfl, fun _ _ => rfl, fun _ _ => rfl, fun _ => rfl⟩

/-- C5: a command-loop iteration calls `writeConfiguration` exactly when the
keystroke is ESC, and then it writes to the same configuration-file path the
startup read; no other branch writes the configuration. -/
theorem C5_config_written_only_on_escape (cfg : String) (key : Nat) :
    (loopIteration cfg key).2 = (if key = 27 then some cfg else none) ∧
      ((loopIteration cfg key).1 = Command.exitApp ↔ key = 27) := by
  unfold loopIteration
  split
  · simp_all
  · split <;> [skip; split] <;> [simp_all; simp_all; skip]
    split <;> [simp_all; skip]
    split <;> [simp_all; skip]
    split <;> [simp_all; skip]
    split <;> [simp_all; skip]
    split <;> simp_all

/-- C6: `proj_rays` is allocated as 3 × (cam_w·cam_h) — one column per
camera pixel — and not as 3 × (proj_w·proj_h) whenever those element counts
differ, while `proj_column_planes` is proj_w × 4 and `proj_row_planes` is
proj_h × 4. -/
theorem C6_allocation_sizes (p : SlParams)
    (h : cam_nelems p ≠ proj_nelems p) :
    proj_rays_size p = ⟨3, p.cam_w * p.cam_h⟩ ∧
      proj_rays_size p ≠ ⟨3, p.proj_w * p.proj_h⟩ ∧
      proj_column_planes_size p = ⟨p.proj_w, 4⟩ ∧
      proj_row_planes_size p = ⟨p.proj_h, 4⟩ := by
  refine ⟨rfl, ?_, rfl, rfl⟩
  intro heq
  exact h (by simpa [proj_rays_size, cam_nelems, proj_nelems,
    MatSize.mk.injEq] using heq)

/-- Witness for C6 at a 640×480 camera with a 1024×768 projector. -/
theorem C6_allocation_sizes_witness :
    cam_nelems (SlParams.mk 640 480 1024 768 "output" "object" false) ≠
        proj_nelems (SlParams.mk 640 480 1024 768 "output" "object" false) ∧
      (proj_rays_size (SlParams.mk 640 480 1024 768 "output" "object" false) =
          ⟨3, 640 * 480⟩ ∧
        proj_rays_size (SlParams.mk 640 480 1024 768 "output" "object" false) ≠
          ⟨3, 1024 * 768⟩ ∧
        proj_column_planes_size
            (SlParams.mk 640 480 1024 768 "output" "object" false) = ⟨1024, 4⟩ ∧
        proj_row_planes_size
            (SlParams.mk 640 480 1024 768 "output" "object" false) = ⟨768, 4⟩) :=
  ⟨by decide, C6_allocation_sizes _ (by decide)⟩

/-- C7: the startup projector frame is filled with `cvScalar(255, 0, 0)`
(blue in BGR channel order) and the per-iteration idle frame with
`cvScalar(255, 255, 255)` (white); the two colors differ. -/
theorem C7_startup_and_idle_frames_differ :
    startupProjFrameColor = (255, 0, 0) ∧
      idleProjFrameColor = (255, 255, 255) ∧
      startupProjFrameColor ≠ idleProjFrameColor := by
  decide

end StructuredLight
